import Mathlib

/-!
Shallow embedding of the EXE-builder application (src/EXE.py).

The program is a GUI front-end: the user picks a source file, selects one of
six packaging tools, toggles flag checkboxes, and triggers a build.  The
embedding models the pure decision logic of the program:

  * the static catalogs `TOOLS`, `TOOL_EXPLAIN`, `TOOL_FLAGS`;
  * `ensure_installed`, the dependency resolver, over an abstract
    environment (whether the module imports, whether pip succeeds);
  * `show_flag_checkboxes`, the dynamic panel rebuild;
  * `build_exe`, modelled as a pure function from the application state and
    an environment (interpreter path, temp directory, per-process outcomes)
    to the new application state plus a trace of the external effects the
    handler performs (processes launched, files written, dependency check,
    installer invocation, diagnostic dialog).

Exceptions raised by the external processes are modelled by the
environment's `procOutcome` function: the k-th process launch of a build
either succeeds (`none`) or raises with a message (`some msg`), reproducing
the `try`/`except` structure of `build_exe`.
-/

namespace ExeBuilder

/-- Catalog of tools: (display name, installable package identifier).
Embeds `TOOLS` (src/EXE.py lines 11-18). -/
def TOOLS : List (String × String) :=
  [("Nuitka", "nuitka"),
   ("PyInstaller", "pyinstaller"),
   ("cx_Freeze", "cx_Freeze"),
   ("py2exe (Windows only)", "py2exe"),
   ("pyoxidizer", "pyoxidizer"),
   ("auto-py-to-exe", "auto-py-to-exe")]

/-- Combobox item texts. Embeds `TOOL_EXPLAIN` (src/EXE.py lines 20-27);
the combobox receives exactly these six items, so the current index is
always in `0..5` (hence `Fin 6` below). -/
def TOOL_EXPLAIN : List String :=
  ["Nuitka (best protection: compiles to C/machine code) — Use with PyQt5 via Qt plugin!",
   "PyInstaller (easy, common, cross-platform)",
   "cx_Freeze (simple, multiplatform)",
   "py2exe (Windows only, legacy)",
   "pyoxidizer (advanced, single binary)",
   "auto-py-to-exe (PyInstaller GUI, beginner-friendly)"]

/-- Per-tool flag descriptors: (flag token, explanation), positionally
aligned with `TOOLS`. Embeds `TOOL_FLAGS` (src/EXE.py lines 29-72). -/
def TOOL_FLAGS : List (List (String × String)) :=
  [ -- Nuitka
    [("--onefile", "Bundle into one executable"),
     ("--standalone", "Include all dependencies (portable)"),
     ("--show-progress", "Show build progress"),
     ("--noinclude-pytest-mode=nofollow", "Smaller EXE (strip pytest support)"),
     ("--mingw64", "Use MinGW64 as C compiler (Windows only)"),
     ("--windows-icon-from-ico=app.ico", "Custom app icon (replace path as needed)"),
     ("--enable-plugin=pyqt5", "Enable PyQt5 plugin support for Qt GUIs in Nuitka"),
     ("--include-qt-plugins=sensible", "Bundle sensible set of Qt plugins (most GUIs)")],
    -- PyInstaller
    [("--onefile", "Bundle into a single exe"),
     ("--console", "Enable console window (needed for input())"),
     ("--windowed", "No console window (GUI apps only)"),
     ("--icon=app.ico", "Custom app icon (replace path as needed)"),
     ("--clean", "Clean up temp files first"),
     ("--add-data=data.file;.", "Add external data file (replace as needed)")],
    -- cx_Freeze
    [("base=None", "Console app (allows input())"),
     ("base=Win32GUI", "GUI app (no console)"),
     ("include_files", "Add extra files (use in setup.py)"),
     ("silent=True", "Suppress cx_Freeze output")],
    -- py2exe
    [("console", "Console app (allows input())"),
     ("windows", "GUI/windowed app"),
     ("bundle_files=1", "Try single exe (not recommended for complex apps)"),
     ("compressed=True", "Compress the library zip")],
    -- pyoxidizer
    [("single_binary=True", "Bundle everything in one binary (edit oxidizer.bzl)"),
     ("--release", "Release mode build (smaller binary)"),
     ("--debug", "Debug mode build")],
    -- auto-py-to-exe
    []]

/-- Result of the dependency resolver: the returned boolean plus the side
effects it performed (pip invocation, warning dialog). -/
structure EnsureResult where
  ok : Bool
  installerInvoked : Bool
  diagnosticShown : Bool
deriving DecidableEq

/-- Embeds `ensure_installed` (src/EXE.py lines 102-113) over an abstract
environment: `importable` is whether the tool module imports
without ImportError, `pipInstallOk` is whether the pip subprocess completes
without raising, `parent_widget` is whether a parent widget was supplied
(so the warning dialog is shown on failure).  The Python function catches
every exception of the install attempt, so it is total. -/
def ensure_installed (importable pipInstallOk parent_widget : Bool) : EnsureResult :=
  if importable then
    { ok := true, installerInvoked := false, diagnosticShown := false }
  else if pipInstallOk then
    { ok := true, installerInvoked := true, diagnosticShown := false }
  else
    { ok := false, installerInvoked := true, diagnosticShown := parent_widget }

/-- A widget placed in the dynamic options panel: a checkbox (with its label
text and checked state) or a static informational text label. -/
inductive PanelWidget where
  | checkbox (labelText : String) (checked : Bool)
  | textLabel (text : String)
deriving DecidableEq

/-- Label text of a flag checkbox (src/EXE.py line 174). -/
def checkboxLabel (fe : String × String) : String :=
  fe.1 ++ " (" ++ fe.2 ++ ")"

/-- Embeds `show_flag_checkboxes` (src/EXE.py lines 165-179).  The handler
first removes and deletes every widget of the previous panel and resets
`self.checkboxes` to the empty list, so the previous panel `prevPanel` is
discarded and does not influence the result; then one fresh (unchecked)
checkbox is created per flag descriptor of the selected tool, in catalog
order, and for index 5 a static informational label is appended. -/
def show_flag_checkboxes (prevPanel : List PanelWidget) (idx : Nat) : List PanelWidget :=
  let cleared : List PanelWidget := []
  let cbs := (TOOL_FLAGS.getD idx []).map (fun fe => PanelWidget.checkbox (checkboxLabel fe) false)
  let ws := cleared ++ cbs
  if idx = 5 then
    ws ++ [PanelWidget.textLabel "Use the GUI to set all options for PyInstaller visually."]
  else ws

/-- The checkboxes of a panel, in order, as (label, checked) pairs; this is
what `self.checkboxes` tracks after a rebuild. -/
def panelCheckboxes (ws : List PanelWidget) : List (String × Bool) :=
  ws.filterMap (fun w =>
    match w with
    | PanelWidget.checkbox l c => some (l, c)
    | PanelWidget.textLabel _ => none)

/-- Embeds the flag-collection loop of `build_exe` (src/EXE.py lines
191-195): for each checked checkbox, the flag token at the same position of
the selected tool's `TOOL_FLAGS` row is collected, in order.  (In any
reachable state the checkbox list and the flag row have equal length.) -/
def selectedFlags (idx : Nat) (checks : List Bool) : List String :=
  (((TOOL_FLAGS.getD idx []).zip checks).filter (fun fc => fc.2)).map (fun fc => fc.1.1)

/-- Index (from the start) of the last occurrence of `c` in `cs`, if any;
models Python str.rfind restricted to single characters. -/
def rfindPos (c : Char) (cs : List Char) : Option Nat :=
  ((cs.enum.filter (fun p => p.2 == c)).map (fun p => p.1)).getLast?

/-- Models posix `os.path.basename`: everything after the last slash. -/
def pyBasename (p : String) : String :=
  (p.splitOn "/").getLastD p

/-- Models the root component of posix `os.path.splitext`: cut at the last
dot, provided the last dot lies after the last separator and some non-dot
character stands between them (leading dots of a file name never start an
extension). -/
def pySplitextRoot (b : String) : String :=
  let cs := b.toList
  let sepIdx : Int :=
    match rfindPos '/' cs with
    | some n => (n : Int)
    | none => -1
  let dotIdx : Int :=
    match rfindPos '.' cs with
    | some n => (n : Int)
    | none => -1
  if sepIdx < dotIdx then
    let start := (sepIdx + 1).toNat
    let stop := dotIdx.toNat
    if ((cs.drop start).take (stop - start)).any (fun ch => ch != '.') then
      String.mk (cs.take stop)
    else b
  else b

/-- The base-mode variable of the cx_Freeze branch (src/EXE.py lines
206-208): `None` unless the "base=Win32GUI" token is among the enabled
flags. -/
def cx_base (flags : List String) : Option String :=
  if flags.contains "base=Win32GUI" then some "Win32GUI" else none

/-- Structured form of the generated cx_Freeze setup script (src/EXE.py
lines 209-216): `baseArg` is the optional extra `base=...` argument of the
`Executable(...)` entry, inserted exactly when the base variable equals
"Win32GUI". -/
structure CxSetup where
  name : String
  version : String
  script : String
  baseArg : Option String
deriving DecidableEq

/-- The cx_Freeze build descriptor assembled by `build_exe` (src/EXE.py
lines 209-216). -/
def cx_setup_descriptor (fp : String) (flags : List String) : CxSetup :=
  { name := pySplitextRoot (pyBasename fp),
    version := "0.1",
    script := fp,
    baseArg := if cx_base flags = some "Win32GUI" then some "Win32GUI" else none }

/-- Rendering of the cx_Freeze descriptor to the generated setup.py text,
mirroring the f-string of src/EXE.py lines 209-216. -/
def cx_setup_code (fp : String) (flags : List String) : String :=
  let d := cx_setup_descriptor fp flags
  "\nfrom cx_Freeze import setup, Executable\nsetup(\n    name=\"" ++ d.name ++
    "\",\n    version=\"" ++ d.version ++ "\",\n    executables=[Executable(\"" ++
    d.script ++ "\"" ++
    (match d.baseArg with
     | some b => ", base=\"" ++ b ++ "\""
     | none => "") ++ ")]\n)\n"

/-- The console/windows decision of the py2exe branch (src/EXE.py lines
225-232): console iff the "console" token is enabled, or neither "console"
nor "windows" is enabled (the default); the setup keyword is "console" when
console holds, "windows" otherwise. -/
def py2exe_mode (flags : List String) : String :=
  let console := flags.contains "console"
  let windows := flags.contains "windows"
  let console := if !(console || windows) then true else console
  if console then "console" else "windows"

/-- Structured form of the generated py2exe setup script (src/EXE.py lines
229-233): the setup keyword ("console" or "windows") and the script path. -/
structure Py2exeSetup where
  mode : String
  script : String
deriving DecidableEq

/-- The py2exe build descriptor assembled by `build_exe`. -/
def py2exe_setup_descriptor (fp : String) (flags : List String) : Py2exeSetup :=
  { mode := py2exe_mode flags, script := fp }

/-- Rendering of the py2exe descriptor to the generated setup text,
mirroring the f-string of src/EXE.py lines 229-233. -/
def py2exe_setup_code (fp : String) (flags : List String) : String :=
  let d := py2exe_setup_descriptor fp flags
  "\nfrom distutils.core import setup\nimport py2exe\nsetup(" ++ d.mode ++
    "=[\x27" ++ d.script ++ "\x27])\n"

/-- An external process launch: a blocking `subprocess.run` (with optional
working directory) or a detached `subprocess.Popen`. -/
inductive ProcCall where
  | run (args : List String) (cwd : Option String)
  | popen (args : List String)
deriving DecidableEq

/-- The GUI state touched by `build_exe`: the selected file path (None until
a file is chosen), the combobox index (always one of the six items), the
checked state of the current panel's checkboxes, and the status label
text. -/
structure AppState where
  file_path : Option String
  method_idx : Fin 6
  checkboxes : List Bool
  status : String
deriving DecidableEq

/-- The abstract environment of one build attempt: the interpreter path
(`sys.executable`), whether the selected tool module imports, whether a pip
install would succeed, the fresh directory `tempfile.mkdtemp()` returns,
and the outcome of each external process launch of this build (the k-th
launch either succeeds, `none`, or raises with message `some msg`). -/
structure Env where
  sysExecutable : String
  importable : Bool
  pipInstallOk : Bool
  tempDir : String
  procOutcome : Nat → Option String

/-- The externally visible effects of one `build_exe` call. -/
structure BuildEffects where
  depChecked : Bool
  installerInvoked : Bool
  diagnosticShown : Bool
  filesWritten : List (String × String)
  procs : List ProcCall
deriving DecidableEq

/-- The files written by the tool branch of `build_exe` before it launches
its process(es): the generated setup scripts of the cx_Freeze and py2exe
branches, written into the fresh temp directory (src/EXE.py lines 217-221
and 234-238); no other branch writes a file. -/
def branchWrites (fp : String) (idx : Nat) (flags : List String) (tempDir : String) :
    List (String × String) :=
  if idx = 2 then [(tempDir ++ "/setup.py", cx_setup_code fp flags)]
  else if idx = 3 then [(tempDir ++ "/setup_py2exe.py", py2exe_setup_code fp flags)]
  else []

/-- The external process launches the tool branch of `build_exe` attempts,
in order (src/EXE.py lines 197-253): one direct invocation for Nuitka and
PyInstaller (the latter always appending the fixed hidden-import argument),
one generated-script invocation for cx_Freeze and py2exe, the two-step
init-config/build pair for pyoxidizer (with release/debug appended to the
second command only), and a detached Popen for auto-py-to-exe. -/
def branchCalls (sysExe fp : String) (idx : Nat) (flags : List String) (tempDir : String) :
    List ProcCall :=
  if idx = 0 then
    [ProcCall.run ([sysExe, "-m", "nuitka", fp] ++ flags) none]
  else if idx = 1 then
    [ProcCall.run ([sysExe, "-m", "PyInstaller", fp] ++ flags ++ ["--hidden-import=colorama"]) none]
  else if idx = 2 then
    [ProcCall.run [sysExe, tempDir ++ "/setup.py", "build"] (some tempDir)]
  else if idx = 3 then
    [ProcCall.run [sysExe, tempDir ++ "/setup_py2exe.py", "py2exe"] (some tempDir)]
  else if idx = 4 then
    [ProcCall.run ["pyoxidizer", "init-config", fp] none,
     ProcCall.run (["pyoxidizer", "build"]
       ++ (if flags.contains "--release" then ["--release"] else [])
       ++ (if flags.contains "--debug" then ["--debug"] else [])) none]
  else if idx = 5 then
    [ProcCall.popen ["auto-py-to-exe"]]
  else []

/-- The success status text each tool branch sets after its processes all
complete (src/EXE.py lines 200, 204, 223, 240, 250, 254). -/
def branchOkStatus (idx : Nat) : Option String :=
  if idx = 0 then some "EXE built with Nuitka (output folder)."
  else if idx = 1 then some "EXE built with PyInstaller (dist folder)."
  else if idx = 2 then some "EXE built with cx_Freeze (build folder in temp dir)."
  else if idx = 3 then some "EXE built with py2exe (dist folder in temp dir)."
  else if idx = 4 then some "EXE built with pyoxidizer (see build artifacts)."
  else if idx = 5 then some "Opened auto-py-to-exe GUI. Use it to build your EXE."
  else none

/-- Executes a list of process launches under the environment's outcomes,
mirroring the `try` block of `build_exe`: launches are attempted in order;
if the k-th launch raises (outcome `some msg`), execution stops there and
the message is returned; the failing launch is the last one attempted. -/
def runSeq (o : Nat → Option String) : Nat → List ProcCall → List ProcCall × Option String
  | _, [] => ([], none)
  | k, p :: ps =>
    match o k with
    | some msg => ([p], some msg)
    | none =>
      match runSeq o (k + 1) ps with
      | (launched, err) => (p :: launched, err)

/-- Embeds `build_exe` (src/EXE.py lines 181-256).  Returns the new
application state together with the effects of the handler.  Structure of
the source: the no-file guard (lines 182-184), the dependency check
(lines 185-189), flag collection (lines 191-195), and the per-tool `try`
block whose exceptions are caught at line 255 and turned into a
"Build failed: " status. -/
def build_exe (st : AppState) (env : Env) : AppState × BuildEffects :=
  match st.file_path with
  | none =>
    ({ st with status := "Please select a Python file first." },
     { depChecked := false, installerInvoked := false, diagnosticShown := false,
       filesWritten := [], procs := [] })
  | some fp =>
    let tool_name := (TOOLS.getD st.method_idx.val ("", "")).2
    let ens := ensure_installed env.importable env.pipInstallOk true
    if ens.ok = false then
      ({ st with status := tool_name ++ " not available." },
       { depChecked := true, installerInvoked := ens.installerInvoked,
         diagnosticShown := ens.diagnosticShown, filesWritten := [], procs := [] })
    else
      let flags := selectedFlags st.method_idx.val st.checkboxes
      let writes := branchWrites fp st.method_idx.val flags env.tempDir
      let calls := branchCalls env.sysExecutable fp st.method_idx.val flags env.tempDir
      let r := runSeq env.procOutcome 0 calls
      let newStatus :=
        match r.2 with
        | some msg => "Build failed: " ++ msg
        | none =>
          match branchOkStatus st.method_idx.val with
          | some s => s
          | none => st.status
      ({ st with status := newStatus },
       { depChecked := true, installerInvoked := ens.installerInvoked,
         diagnosticShown := ens.diagnosticShown, filesWritten := writes, procs := r.1 })

/-- A benign environment used by concrete witnesses: dependency available,
every process launch succeeds. -/
def envEx : Env :=
  { sysExecutable := "python", importable := true, pipInstallOk := true,
    tempDir := "/tmp/bx", procOutcome := fun _ => none }

/-- An environment whose dependency check fails outright: the module does
not import and the pip install also fails. -/
def envBad : Env :=
  { sysExecutable := "python", importable := false, pipInstallOk := false,
    tempDir := "/tmp/bx", procOutcome := fun _ => none }

/-- An environment where the dependency is available but every external
process launch raises with message "boom". -/
def envFail : Env :=
  { sysExecutable := "python", importable := true, pipInstallOk := true,
    tempDir := "/tmp/bx", procOutcome := fun _ => some "boom" }

/-- Concrete state for the PyInstaller witness: file "app.py" selected,
tool index 1, exactly the first checkbox ("--onefile") checked. -/
def stEx4 : AppState :=
  { file_path := some "app.py", method_idx := 1,
    checkboxes := [true, false, false, false, false, false], status := "" }

/-- Concrete state for the failure witness: file "app.py" selected, tool
index 0 (Nuitka), no flags checked. -/
def stEx7 : AppState :=
  { file_path := some "app.py", method_idx := 0, checkboxes := [], status := "" }

/-- Sanity: the three static catalogs are positionally aligned with six
entries each. -/
theorem catalogs_aligned : TOOLS.length = 6 ∧ TOOL_EXPLAIN.length = 6 ∧ TOOL_FLAGS.length = 6 :=
  ⟨rfl, rfl, rfl⟩

/-- The launches attempted by `runSeq` are an initial segment of the
planned launch list. -/
theorem runSeq_take (o : Nat → Option String) (k : Nat) (l : List ProcCall) :
    ∃ n, (runSeq o k l).1 = l.take n := by
  induction l generalizing k with
  | nil => exact ⟨0, rfl⟩
  | cons p ps ih =>
    cases h : o k with
    | some msg =>
      refine ⟨1, ?_⟩
      simp [runSeq, h]
    | none =>
      obtain ⟨n, hn⟩ := ih (k + 1)
      refine ⟨n + 1, ?_⟩
      simp [runSeq, h]
      exact hn

/-- C1: a build attempt with no source file selected launches no external
process, performs no dependency check or install, and only sets the status
text to the choose-a-file message; every other component of the state is
unchanged. -/
theorem build_no_file_selected (st : AppState) (env : Env)
    (h : st.file_path = none) :
    build_exe st env =
      ({ st with status := "Please select a Python file first." },
       { depChecked := false, installerInvoked := false, diagnosticShown := false,
         filesWritten := [], procs := [] }) := by
  simp [build_exe, h]

/-- Witness for C1 at a concrete state with no file selected. -/
theorem build_no_file_selected_witness :
    build_exe { file_path := none, method_idx := 0, checkboxes := [], status := "s" } envEx =
      ({ file_path := none, method_idx := 0, checkboxes := [],
         status := "Please select a Python file first." },
       { depChecked := false, installerInvoked := false, diagnosticShown := false,
         filesWritten := [], procs := [] }) :=
  build_no_file_selected _ envEx rfl

/-- C2: for tool index 3 (py2exe), over every combination of the four
checkboxes (console, windows, bundle_files, compressed), the generated
descriptor's setup keyword is "console" whenever the console checkbox is
set (including when both are set), "windows" when exactly the windows
checkbox is set, and "console" by default when neither is set. -/
theorem py2exe_mode_selection (fp : String) (a b c d : Bool) :
    (py2exe_setup_descriptor fp (selectedFlags 3 [a, b, c, d])).mode =
      (if a then "console" else if b then "windows" else "console") := by
  cases a <;> cases b <;> cases c <;> cases d <;> rfl

/-- C3: after the selection changes to any tool index, the rebuilt flag
panel contains exactly one fresh unchecked checkbox per flag descriptor of
that index, in catalog order, and the result is independent of the previous
panel's widgets and checked states, which are fully discarded. -/
theorem panel_rebuild_exact (prevPanel prevPanel' : List PanelWidget) (idx : Fin 6) :
    panelCheckboxes (show_flag_checkboxes prevPanel idx.val) =
      (TOOL_FLAGS.getD idx.val []).map (fun fe => (checkboxLabel fe, false)) ∧
    show_flag_checkboxes prevPanel idx.val = show_flag_checkboxes prevPanel' idx.val := by
  refine ⟨?_, rfl⟩
  fin_cases idx <;> rfl

/-- C4: for tool index 1 (PyInstaller) with the dependency available, the
single assembled command is
[interpreter, "-m", "PyInstaller", source path] ++ enabled flags ++
[fixed hidden-import argument] — the hidden-import argument is appended on
every index-1 build regardless of the enabled flags — and in particular,
with exactly "--onefile" enabled and file "app.py" selected, the vector is
[interpreter, "-m", "PyInstaller", "app.py", "--onefile",
"--hidden-import=colorama"]. -/
theorem pyinstaller_vector (st : AppState) (env : Env) (fp : String)
    (hfile : st.file_path = some fp) (hidx : st.method_idx = (1 : Fin 6))
    (hdep : (ensure_installed env.importable env.pipInstallOk true).ok = true) :
    (build_exe st env).2.procs =
      [ProcCall.run ([env.sysExecutable, "-m", "PyInstaller", fp]
        ++ selectedFlags 1 st.checkboxes ++ ["--hidden-import=colorama"]) none] ∧
    (fp = "app.py" → st.checkboxes = [true, false, false, false, false, false] →
      (build_exe st env).2.procs =
        [ProcCall.run [env.sysExecutable, "-m", "PyInstaller", "app.py",
          "--onefile", "--hidden-import=colorama"] none]) := by
  have hv : st.method_idx.val = 1 := by rw [hidx]; rfl
  have hprocs : (build_exe st env).2.procs =
      [ProcCall.run ([env.sysExecutable, "-m", "PyInstaller", fp]
        ++ selectedFlags 1 st.checkboxes ++ ["--hidden-import=colorama"]) none] := by
    cases hpo : env.procOutcome 0 <;>
      simp [build_exe, hfile, hv, hdep, branchCalls, runSeq, hpo]
  refine ⟨hprocs, ?_⟩
  intro hfp hcb
  rw [hprocs, hfp, hcb]
  rfl

/-- Witness for C4: the concrete build state selects "app.py", tool 1, and
exactly the "--onefile" checkbox. -/
theorem pyinstaller_vector_witness :
    (build_exe stEx4 envEx).2.procs =
      [ProcCall.run ["python", "-m", "PyInstaller", "app.py", "--onefile",
        "--hidden-import=colorama"] none] := by
  have h := pyinstaller_vector stEx4 envEx "app.py" rfl rfl rfl
  exact h.2 rfl rfl

/-- C5: for tool index 2 (cx_Freeze), over every combination of the four
checkboxes (base=None, base=Win32GUI, include_files, silent=True) and every
selected file, the generated descriptor's executable entry carries the
windowed-base argument exactly when the base=Win32GUI checkbox is set, and
carries no base argument otherwise. -/
theorem cxfreeze_base_iff (fp : String) (a b c d : Bool) :
    (cx_setup_descriptor fp (selectedFlags 2 [a, b, c, d])).baseArg =
      (if b then some "Win32GUI" else none) := by
  cases a <;> cases b <;> cases c <;> cases d <;> rfl

/-- C6: when a file is selected but the dependency check reports the tool
unavailable (the module does not import and the install attempt fails), no
build process is launched, no file is written, and the build aborts with
the status naming the unavailable tool; the diagnostic dialog was shown and
only the status text of the state changes. -/
theorem dep_unavailable_aborts (st : AppState) (env : Env) (fp : String)
    (hfile : st.file_path = some fp)
    (hens : (ensure_installed env.importable env.pipInstallOk true).ok = false) :
    build_exe st env =
      ({ st with status := (TOOLS.getD st.method_idx.val ("", "")).2 ++ " not available." },
       { depChecked := true, installerInvoked := true, diagnosticShown := true,
         filesWritten := [], procs := [] }) := by
  cases hi : env.importable <;> cases hp : env.pipInstallOk <;>
    rw [hi, hp] at hens
  · simp [build_exe, hfile, ensure_installed, hi, hp]
  · exact absurd hens (by simp [ensure_installed])
  · exact absurd hens (by simp [ensure_installed])
  · exact absurd hens (by simp [ensure_installed])

/-- Witness for C6 at a concrete state and an environment where both
importing the module and installing it fail. -/
theorem dep_unavailable_aborts_witness :
    build_exe { file_path := some "app.py", method_idx := 0, checkboxes := [], status := "" }
        envBad =
      ({ file_path := some "app.py", method_idx := 0, checkboxes := [],
         status := "nuitka not available." },
       { depChecked := true, installerInvoked := true, diagnosticShown := true,
         filesWritten := [], procs := [] }) := by
  have h := dep_unavailable_aborts
    { file_path := some "app.py", method_idx := 0, checkboxes := [], status := "" }
    envBad "app.py" rfl rfl
  exact h

/-- C7: when a file is selected and the dependency is available, if the
external build process raises on launch or exits nonzero (the executor
reports an exception message), then the exception is caught at the build
boundary: the new state equals the old state with only the status text
changed to "Build failed: " followed by the exception message verbatim, the
attempted launches are exactly what the executor reached — an initial
segment of the planned launches, so nothing is retried — and the files
written by the branch are kept as they are (no cleanup of partial
results). -/
theorem build_failure_surfaced (st : AppState) (env : Env) (fp msg : String)
    (hfile : st.file_path = some fp)
    (hdep : (ensure_installed env.importable env.pipInstallOk true).ok = true)
    (herr : (runSeq env.procOutcome 0
        (branchCalls env.sysExecutable fp st.method_idx.val
          (selectedFlags st.method_idx.val st.checkboxes) env.tempDir)).2 = some msg) :
    (build_exe st env).1 = { st with status := "Build failed: " ++ msg } ∧
    (build_exe st env).2.procs =
      (runSeq env.procOutcome 0
        (branchCalls env.sysExecutable fp st.method_idx.val
          (selectedFlags st.method_idx.val st.checkboxes) env.tempDir)).1 ∧
    (∃ n, (build_exe st env).2.procs =
      (branchCalls env.sysExecutable fp st.method_idx.val
        (selectedFlags st.method_idx.val st.checkboxes) env.tempDir).take n) ∧
    (build_exe st env).2.filesWritten =
      branchWrites fp st.method_idx.val
        (selectedFlags st.method_idx.val st.checkboxes) env.tempDir := by
  refine ⟨?_, ?_, ?_, ?_⟩
  · simp [build_exe, hfile, hdep, herr]
  · simp [build_exe, hfile, hdep]
  · obtain ⟨n, hn⟩ := runSeq_take env.procOutcome 0
      (branchCalls env.sysExecutable fp st.method_idx.val
        (selectedFlags st.method_idx.val st.checkboxes) env.tempDir)
    exact ⟨n, by simp [build_exe, hfile, hdep, hn]⟩
  · simp [build_exe, hfile, hdep]

/-- Witness for C7: a concrete Nuitka build whose single process launch
raises with message "boom". -/
theorem build_failure_surfaced_witness :
    (build_exe stEx7 envFail).1 =
      { file_path := some "app.py", method_idx := 0, checkboxes := [],
        status := "Build failed: boom" } ∧
    (build_exe stEx7 envFail).2.procs =
      (runSeq envFail.procOutcome 0
        (branchCalls envFail.sysExecutable "app.py" (stEx7.method_idx).val
          (selectedFlags (stEx7.method_idx).val stEx7.checkboxes) envFail.tempDir)).1 ∧
    (∃ n, (build_exe stEx7 envFail).2.procs =
      (branchCalls envFail.sysExecutable "app.py" (stEx7.method_idx).val
        (selectedFlags (stEx7.method_idx).val stEx7.checkboxes) envFail.tempDir).take n) ∧
    (build_exe stEx7 envFail).2.filesWritten =
      branchWrites "app.py" (stEx7.method_idx).val
        (selectedFlags (stEx7.method_idx).val stEx7.checkboxes) envFail.tempDir :=
  build_failure_surfaced stEx7 envFail "app.py" "boom" rfl rfl rfl

/-- C8: the dependency resolver returns true exactly when the package is
already importable or the installer invocation completes successfully;
otherwise it returns false, shows the user-visible diagnostic exactly when
a parent widget is supplied, and (being a total function of its
environment) propagates no exception; the installer is invoked exactly
when the package is not already importable. -/
theorem ensure_installed_contract :
    ∀ importable pipInstallOk parent_widget : Bool,
      (ensure_installed importable pipInstallOk parent_widget).ok =
        (importable || pipInstallOk) ∧
      (ensure_installed importable pipInstallOk parent_widget).diagnosticShown =
        (!(importable || pipInstallOk) && parent_widget) ∧
      (ensure_installed importable pipInstallOk parent_widget).installerInvoked =
        !importable := by
  decide

/-- C9: for tool index 4 (pyoxidizer), over every combination of the three
checkboxes (single_binary=True, --release, --debug) and every file, the
planned invocation is exactly two commands: first the init-config command
carrying only the source path, then the build command, to which --release
and --debug are appended exactly when their checkboxes are set; no other
token is passed to either command. -/
theorem pyoxidizer_two_step (sysExe fp tempDir : String) (a b c : Bool) :
    branchCalls sysExe fp 4 (selectedFlags 4 [a, b, c]) tempDir =
      [ProcCall.run ["pyoxidizer", "init-config", fp] none,
       ProcCall.run (["pyoxidizer", "build"]
         ++ (if b then ["--release"] else [])
         ++ (if c then ["--debug"] else [])) none] := by
  cases a <;> cases b <;> cases c <;> rfl

/-- C10: for tool index 2 (cx_Freeze), when both the console-base
(base=None) and GUI-base (base=Win32GUI) checkboxes are set, the GUI base
wins: the descriptor carries the windowed-base argument; with the
console-base checkbox set alone, the descriptor carries no base
argument. -/
theorem cxfreeze_gui_wins (fp : String) (c d : Bool) :
    (cx_setup_descriptor fp (selectedFlags 2 [true, true, c, d])).baseArg = some "Win32GUI" ∧
    (cx_setup_descriptor fp (selectedFlags 2 [true, false, c, d])).baseArg = none := by
  cases c <;> cases d <;> exact ⟨rfl, rfl⟩

end ExeBuilder
